import Mathlib

/-!
Verification of the agent/tool-orchestration core of the repository:
the exploration HTTP probe tool, the tool registry and executor, the
specification agent, and the code-generation agent with its write_file,
create_seed_database and validate_environment tools.

Python source files are embedded shallowly: external effects (the network,
the filesystem, subprocesses, sqlite) appear as explicit oracles or state,
and a Python exception is a value of an outcome type rather than a Lean
exception.
-/

namespace Spec2Proof

/-! ## Outcome of a Python call: normal return or raised exception -/

/-- Result of running a Python code path: either a returned value or a
raised exception carrying its message. -/
inductive ExecOutcome (α : Type) where
  | ok (v : α)
  | raised (msg : String)
deriving Repr, DecidableEq

/-! ## HTTP probe tool (src/src/tools/tool_executor.py, ToolExecutor) -/

/-- A successfully delivered HTTP response, as the requests library
presents it: status code, reason phrase, headers, raw text, and the
JSON-parsed body when response.json() succeeds. -/
structure HttpResponse where
  status_code : Nat
  reason : String
  resp_headers : List (String × String)
  text : String
  jsonBody : Option String
deriving Repr, DecidableEq

/-- Outcome of one network request: a response, or a
requests.exceptions.RequestException with its message. -/
inductive RequestOutcome where
  | resp (r : HttpResponse)
  | netErr (msg : String)
deriving Repr, DecidableEq

/-- The network as an oracle: method and path determine the outcome of
the one request the code makes. -/
def Network : Type := String → String → RequestOutcome

/-- Arguments of the make_http_request tool; absent keys are none,
mirroring params.get with defaults in the Python. -/
structure HttpParams where
  method : Option String
  path : Option String
  req_headers : List (String × String)
  body : Option String
deriving Repr, DecidableEq

/-- The dict returned by _make_http_request: a success dict with status,
statusText, headers and parsed-or-raw body, or a failure dict carrying an
error string. -/
inductive HttpResult where
  | success (status : Nat) (statusText : String)
      (result_headers : List (String × String)) (respBody : String)
  | failure (error : String)
deriving Repr, DecidableEq

/-- Upper-casing of the method string, as Python str.upper does on the
ASCII method names at stake: each character mapped through Char.toUpper. -/
def strUpper (s : String) : String := String.mk (s.data.map Char.toUpper)

/-- The parsed-or-raw body choice of _make_http_request: response.json()
if it parses, response.text otherwise. -/
def parsedOrRaw (r : HttpResponse) : String :=
  r.jsonBody.getD r.text

/-- One dispatched request inside the try block of _make_http_request:
a delivered response becomes the success dict, a RequestException is
caught and becomes the failure dict with str(e). -/
def performRequest (net : Network) (m p : String) : HttpResult :=
  match net m p with
  | RequestOutcome.resp r =>
      HttpResult.success r.status_code r.reason r.resp_headers (parsedOrRaw r)
  | RequestOutcome.netErr e => HttpResult.failure e

/-- Embedding of ToolExecutor._make_http_request: defaults method to GET
and path to "/", upper-cases the method, dispatches GET, POST, PUT and
DELETE to the requests library, and answers any other method with an
Unsupported method failure dict without touching the network. -/
def make_http_request (net : Network) (params : HttpParams) : HttpResult :=
  let m := strUpper (params.method.getD "GET")
  let p := params.path.getD "/"
  if m = "GET" then performRequest net m p
  else if m = "POST" then performRequest net m p
  else if m = "PUT" then performRequest net m p
  else if m = "DELETE" then performRequest net m p
  else HttpResult.failure ("Unsupported method: " ++ m)

/-! ## Validation pipeline (code_generator_agent.py, _validate_environment) -/

/-- Outcome of one subprocess.run call: completion with a return code and
captured output, a subprocess.TimeoutExpired, or some other exception
raised while launching the command. -/
inductive RunOutcome where
  | completed (returncode : Int) (out err : String)
  | timedOut
  | launchErr (msg : String)
deriving Repr, DecidableEq

/-- True exactly when the Python install or build step takes a failure
branch: nonzero exit, timeout, or a launch exception. -/
def runStepFailed : RunOutcome → Bool
  | RunOutcome.completed rc _ _ => rc != 0
  | RunOutcome.timedOut => true
  | RunOutcome.launchErr _ => true

/-- Outcome of the one health probe urllib.request.urlopen makes: a
status code, or an exception (connection refused, timeout, HTTPError). -/
inductive HealthOutcome where
  | status (n : Nat)
  | exc (msg : String)
deriving Repr, DecidableEq

/-- Behaviour of the dev server spawn in step 3: subprocess.Popen raises,
or a process is spawned. A spawned process either exits during the
warm-up sleep, with its buffered output, or is still alive at the poll;
a live process does or does not terminate within the grace period after
SIGTERM, and the health probe has a fixed outcome. -/
inductive SpawnOutcome where
  | launchFail (msg : String)
  | spawned (exitedEarly : Option (String × String)) (exitsOnSigterm : Bool)
      (health : HealthOutcome)
deriving Repr, DecidableEq

/-- The external world one _validate_environment call observes: the
outcomes of the pnpm install and pnpm build subprocess runs and of the
dev server spawn. -/
structure ValidationEnv where
  install : RunOutcome
  build : RunOutcome
  dev : SpawnOutcome
deriving Repr, DecidableEq

/-- The dict _validate_environment returns: the success flag, the phase
tag of a failure, the errors and stdout fields, and the message. -/
structure ValidationResult where
  success : Bool
  phase : Option String
  errors : Option String
  stdout : Option String
  message : String
deriving Repr, DecidableEq

/-- State of the spawned dev process when the tool call returns. -/
inductive ProcState where
  | running
  | exited
deriving Repr, DecidableEq

/-- Observable side effects of one _validate_environment call: the
commands handed to the subprocess module in order, the signals the
cleanup sent to the process group, and the final state of the spawned
process (none when no process was ever spawned). -/
structure ValidationTrace where
  launched : List String
  signalsSent : List String
  procFinal : Option ProcState
deriving Repr, DecidableEq

/-- The finally block of _validate_environment on a process that is
still running: os.killpg sends SIGTERM to the process group, proc.wait
waits up to the grace period, and on its TimeoutExpired the except arm
sends SIGKILL to the group, which a process cannot ignore. Returns the
final process state and the signals sent. -/
def cleanupRunningProc (exitsOnSigterm : Bool) : ProcState × List String :=
  if exitsOnSigterm then (ProcState.exited, ["SIGTERM"])
  else (ProcState.exited, ["SIGTERM", "SIGKILL"])

/-- The finally block on a process that already exited during warm-up:
os.getpgid raises ProcessLookupError for both the SIGTERM and the SIGKILL
attempt, each swallowed by its except arm, so no signal is delivered. -/
def cleanupExitedProc : ProcState × List String := (ProcState.exited, [])

/-- Step 3 of _validate_environment: spawn pnpm run dev, sleep, poll,
probe the health endpoint, and run the unconditional finally cleanup.
Returns the result dict together with the signals sent and the final
process state. -/
def devPhase (dev : SpawnOutcome) :
    ValidationResult × List String × Option ProcState :=
  match dev with
  | SpawnOutcome.launchFail e =>
      (⟨false, some "dev", some e, some "",
        "Validation failed with exception: " ++ e⟩, [], none)
  | SpawnOutcome.spawned exitedEarly exitsOnSigterm health =>
      match exitedEarly with
      | some (out, err) =>
          let (st, sigs) := cleanupExitedProc
          (⟨false, some "dev", some err, some out,
            "Server process exited immediately. Check for runtime errors."⟩,
           sigs, some st)
      | none =>
          let (st, sigs) := cleanupRunningProc exitsOnSigterm
          match health with
          | HealthOutcome.status n =>
              if n = 200 then
                (⟨true, none, none, none,
                  "All validation checks passed! Environment is working correctly."⟩,
                 sigs, some st)
              else
                (⟨false, some "dev",
                  some ("Health check returned status " ++ toString n), some "",
                  "Health check failed with status " ++ toString n⟩,
                 sigs, some st)
          | HealthOutcome.exc e =>
              (⟨false, some "dev", some e, some "",
                "Failed to connect to health endpoint: " ++ e⟩,
               sigs, some st)

/-- Embedding of CodeGeneratorAgent._validate_environment: run pnpm
install (timeout 120), on success pnpm build (timeout 60), on success
spawn pnpm run dev and probe the health endpoint, with the cleanup of
the finally block; each failure returns immediately with its phase tag.
The trace records the commands launched, the signals sent, and the final
state of the spawned process. -/
def validate_environment (env : ValidationEnv) :
    ValidationResult × ValidationTrace :=
  match env.install with
  | RunOutcome.completed rc out err =>
      if rc != 0 then
        (⟨false, some "install", some err, some out,
          "pnpm install failed. Check the error messages and fix package.json or dependencies."⟩,
         ⟨["pnpm install"], [], none⟩)
      else
        match env.build with
        | RunOutcome.completed rcB outB errB =>
            if rcB != 0 then
              (⟨false, some "build", some errB, some outB,
                "pnpm build failed. Check TypeScript errors and fix the code."⟩,
               ⟨["pnpm install", "pnpm build"], [], none⟩)
            else
              let (res, sigs, st) := devPhase env.dev
              (res, ⟨["pnpm install", "pnpm build", "pnpm run dev"], sigs, st⟩)
        | RunOutcome.timedOut =>
            (⟨false, some "build", some "Command timed out after 60 seconds",
              some "", "pnpm build timed out."⟩,
             ⟨["pnpm install", "pnpm build"], [], none⟩)
        | RunOutcome.launchErr e =>
            (⟨false, some "build", some e, some "",
              "pnpm build failed with exception: " ++ e⟩,
             ⟨["pnpm install", "pnpm build"], [], none⟩)
  | RunOutcome.timedOut =>
      (⟨false, some "install", some "Command timed out after 120 seconds",
        some "", "pnpm install timed out."⟩,
       ⟨["pnpm install"], [], none⟩)
  | RunOutcome.launchErr e =>
      (⟨false, some "install", some e, some "",
        "pnpm install failed with exception: " ++ e⟩,
       ⟨["pnpm install"], [], none⟩)

/-! ## Iteration ceilings (the max_iterations each agent passes to
BaseAgent in its constructor) -/

/-- max_iterations of ExplorationAgent (exploration_agent.py line 56). -/
def explorationAgentMaxIterations : Nat := 100

/-- max_iterations of SpecificationAgent (specification_agent.py line 86). -/
def specificationAgentMaxIterations : Nat := 10

/-- max_iterations of CodeGeneratorAgent (code_generator_agent.py line 302). -/
def codeGeneratorAgentMaxIterations : Nat := 40

/-! ## write_file tool (code_generator_agent.py, _write_file) -/

/-- State a CodeGeneratorAgent run mutates through its file tools: the
text files on disk under the output directory, keyed by relative path,
and the generated_files manifest list. -/
structure CGState where
  fs : String → Option String
  generated_files : List String

/-- The dict _write_file returns. -/
structure WriteResult where
  success : Bool
  message : String
  path : String
deriving Repr, DecidableEq

/-- Embedding of CodeGeneratorAgent._write_file: create parent
directories as needed, open the file in mode w (truncating any previous
content) and write the new content, then append the relative path to
generated_files unconditionally. -/
def write_file (st : CGState) (rel_path content : String) :
    CGState × WriteResult :=
  ({ fs := fun q => if q = rel_path then some content else st.fs q,
     generated_files := st.generated_files ++ [rel_path] },
   ⟨true, "File written: " ++ rel_path, rel_path⟩)

/-! ## create_seed_database tool (code_generator_agent.py,
_create_seed_database) -/

/-- How sqlite executes one SQL statement of a script against the store,
given the list of statements applied to the store so far: the new applied
list on success, or none when sqlite raises an error on the statement. -/
def SqlExec : Type := String → List String → Option (List String)

/-- conn.executescript, statement by statement, in autocommit: each
successful statement is committed to the store as it runs, and the first
failing statement raises, leaving the earlier statements applied.
Returns the error message of the failing statement, if any, and the
final content of the store. -/
def executescript (exec : SqlExec) : List String → List String →
    Option String × List String
  | [], db => (none, db)
  | s :: rest, db =>
      match exec s db with
      | some db2 => executescript exec rest db2
      | none => (some ("SQL error in statement: " ++ s), db)

/-- Filesystem as seen by _create_seed_database: schema text files by
path, each already split into its SQL statements, and sqlite store files
by path, each recorded as the list of statements applied to it. -/
structure SeedFS where
  textFiles : String → Option (List String)
  dbFiles : String → Option (List String)

/-- Embedding of CodeGeneratorAgent._create_seed_database: read the
schema file (an unreadable file raises before the store is touched),
create the store directory, connect — sqlite3.connect plus the journal
and foreign-key pragmas materialise the store file on disk before the
schema runs — then executescript the schema; a failing statement raises
out of the tool with the store file left as the script left it. -/
def create_seed_database (exec : SqlExec) (fs : SeedFS)
    (schema_path output_path : String) : ExecOutcome String × SeedFS :=
  match fs.textFiles schema_path with
  | none =>
      (ExecOutcome.raised ("No such file or directory: " ++ schema_path), fs)
  | some stmts =>
      let db0 := (fs.dbFiles output_path).getD []
      let (errOpt, db2) := executescript exec stmts db0
      let fs2 : SeedFS :=
        { fs with dbFiles := fun q =>
            if q = output_path then some db2 else fs.dbFiles q }
      match errOpt with
      | some e => (ExecOutcome.raised e, fs2)
      | none => (ExecOutcome.ok ("Database created: " ++ output_path), fs2)

/-! ## Tool registry and executor (tool_executor.py, ToolExecutor) and
the loop-side conversion of handler exceptions -/

/-- An observation recorded by the exploration agent. -/
structure Observation where
  category : String
  observation : String
deriving Repr, DecidableEq

/-- Mutable state of a ToolExecutor instance: the observations list. -/
structure ExplorationState where
  observations : List Observation
deriving Repr, DecidableEq

/-- Arguments of one exploration tool call, keyed like the Python dicts:
absent keys are none. -/
structure ExplToolInput where
  http : HttpParams
  observation : Option String
  category : Option String
  summary : Option String
deriving Repr, DecidableEq

/-- A value an exploration tool handler returns: the http result dict,
the record_observation acknowledgement, or the completion payload with
the summary and the observation log. -/
inductive ExplToolValue where
  | httpRes (r : HttpResult)
  | recorded (message : String)
  | completed (summary : String) (observations : List Observation)
deriving Repr, DecidableEq

/-- Embedding of ToolExecutor.execute: dispatch on the tool name to
_make_http_request, _record_observation or _complete_exploration, and
raise ValueError with the offending name for any other name. Returns
the outcome, the state after the call, and the list of handlers that
actually ran. -/
def ToolExecutor_execute (net : Network) (st : ExplorationState)
    (tool_name : String) (tool_input : ExplToolInput) :
    ExecOutcome ExplToolValue × ExplorationState × List String :=
  if tool_name = "make_http_request" then
    (ExecOutcome.ok (ExplToolValue.httpRes (make_http_request net tool_input.http)),
     st, ["make_http_request"])
  else if tool_name = "record_observation" then
    let obs : Observation :=
      ⟨tool_input.category.getD "general", tool_input.observation.getD ""⟩
    (ExecOutcome.ok (ExplToolValue.recorded "Observation recorded"),
     { observations := st.observations ++ [obs] }, ["record_observation"])
  else if tool_name = "complete_exploration" then
    (ExecOutcome.ok
      (ExplToolValue.completed (tool_input.summary.getD "") st.observations),
     st, ["complete_exploration"])
  else
    (ExecOutcome.raised ("Unknown tool: " ++ tool_name), st, [])

/-- The dispatch of CodeGeneratorAgent._execute_tool on the tool name:
the handler an input is routed to, or the ValueError raised with the
offending name when the name is not one of the four registered tools. -/
def cg_execute_tool_route (tool_name : String) : ExecOutcome String :=
  if tool_name = "write_file" then ExecOutcome.ok "write_file"
  else if tool_name = "create_seed_database" then
    ExecOutcome.ok "create_seed_database"
  else if tool_name = "validate_environment" then
    ExecOutcome.ok "validate_environment"
  else if tool_name = "complete_generation" then
    ExecOutcome.ok "complete_generation"
  else ExecOutcome.raised ("Unknown tool: " ++ tool_name)

/-- A ToolResult as the loop feeds it back to the model: the payload the
handler returned, or a failure indicator with a human-readable message. -/
inductive ToolResult (α : Type) where
  | ok (v : α)
  | failure (message : String)
deriving Repr, DecidableEq

/-- Whether the run is still going after one loop step. -/
inductive RunStatus where
  | running
  | terminatedSuccess
deriving Repr, DecidableEq

/-- Modelled from the spec: BaseAgent.run, in src/core/base_agent.py,
which is not among the provided source files, dispatches each requested
tool call through the executor, catches a raised handler exception and
converts it into a ToolResult with a failure indicator and the exception
message so the run continues, and moves to successful termination only
when the completion tool signals completion. This embeds one such
dispatch for the exploration agent. -/
def loopDispatch (net : Network) (st : ExplorationState) (name : String)
    (input : ExplToolInput) :
    ToolResult ExplToolValue × ExplorationState × List String × RunStatus :=
  match ToolExecutor_execute net st name input with
  | (ExecOutcome.ok v, st2, ran) =>
      (ToolResult.ok v, st2, ran,
        match v with
        | ExplToolValue.completed _ _ => RunStatus.terminatedSuccess
        | _ => RunStatus.running)
  | (ExecOutcome.raised m, st2, ran) =>
      (ToolResult.failure m, st2, ran, RunStatus.running)

/-! ## Specification agent (specification_agent.py) -/

/-- A JSON object payload, as a list of key/value pairs; an empty list
is the empty object, which Python treats as falsy. -/
def JsonObj : Type := List (String × String)

/-- Python truthiness of the self.specification attribute: None and the
empty object are falsy, a nonempty object is truthy. -/
def pyTruthyObj : Option JsonObj → Bool
  | none => false
  | some o => !o.isEmpty

/-- One tool call the loop executes during a SpecificationAgent run:
the registered output_specification tool with the value found under its
specification key (none when the key is absent), or any unregistered
tool name. -/
inductive SpecToolCall where
  | output_specification (payload : Option JsonObj)
  | other (name : String)

/-- Embedding of SpecificationAgent._execute_tool: output_specification
stores tool_input.get of the specification key into self.specification
and acknowledges completion; any other name raises ValueError with the
offending name. Returns the outcome and the new self.specification. -/
def spec_execute_tool (specification : Option JsonObj) (c : SpecToolCall) :
    ExecOutcome String × Option JsonObj :=
  match c with
  | SpecToolCall.output_specification payload =>
      (ExecOutcome.ok "Specification generated successfully", payload)
  | SpecToolCall.other name =>
      (ExecOutcome.raised ("Unknown tool: " ++ name), specification)

/-- Modelled from the spec: the loop executes the tool calls the model
makes, in order, each through _execute_tool, threading the agent state;
a raised handler exception is converted to a failure ToolResult and the
state is left as the handler left it. This folds the calls one run
executes over self.specification, which starts as None. -/
def runSpecCalls : List SpecToolCall → Option JsonObj → Option JsonObj
  | [], specification => specification
  | c :: rest, specification => runSpecCalls rest (spec_execute_tool specification c).2

/-- The dict generate_spec returns: the success flag together with the
specification on success or the error string on failure. -/
structure SpecRunResult where
  success : Bool
  specification : Option JsonObj
  error : Option String

/-- Embedding of SpecificationAgent.generate_spec after the run: if
self.specification is truthy the result is success with the stored
specification verbatim, otherwise a failure dict. The list argument is
the sequence of tool calls the run executed. -/
def generate_spec (calls : List SpecToolCall) : SpecRunResult :=
  let spec := runSpecCalls calls none
  if pyTruthyObj spec then ⟨true, spec, none⟩
  else ⟨false, none, some "Failed to generate specification"⟩

/-- The payload of the last output_specification call in a run, when
one was made. -/
def lastOutputPayload : List SpecToolCall → Option (Option JsonObj)
  | [] => none
  | SpecToolCall.output_specification p :: rest =>
      some ((lastOutputPayload rest).getD p)
  | SpecToolCall.other _ :: rest => lastOutputPayload rest

/-- Whether a run made at least one output_specification call. -/
def calledOutputSpecification : List SpecToolCall → Bool
  | [] => false
  | SpecToolCall.output_specification _ :: _ => true
  | SpecToolCall.other _ :: rest => calledOutputSpecification rest

/-- The method enum the make_http_request entry of EXPLORATION_TOOLS
declares in its input schema (tool_definitions.py lines 12 to 16). -/
def explorationMethodEnum : List String :=
  ["GET", "POST", "PUT", "DELETE", "PATCH"]

/-! ## Theorems -/

/-- Claim C4: every method of the declared enum, PATCH included, is
performed and answered with a structured success or network-error
result. Refuted: the schema declares PATCH, but _make_http_request has
no PATCH branch and answers it with the Unsupported method failure dict,
performing no request even when the network would deliver a response. -/
theorem make_http_request_rejects_PATCH :
    "PATCH" ∈ explorationMethodEnum ∧
    make_http_request
        (fun _ _ => RequestOutcome.resp ⟨200, "OK", [], "ok", none⟩)
        ⟨some "PATCH", some "/", [], none⟩ =
      HttpResult.failure ("Unsupported method: " ++ "PATCH") := by
  exact ⟨by decide, by decide⟩

/-- Claim C7: a RequestException raised by the requests call for any
dispatched method is caught and converted into the failure dict carrying
the error text, so make_http_request returns a value to its caller
rather than propagating the exception. -/
theorem make_http_request_catches_network_errors
    (net : Network) (params : HttpParams) (e m p : String)
    (hm : m = strUpper (params.method.getD "GET"))
    (hp : p = params.path.getD "/")
    (hsupp : m = "GET" ∨ m = "POST" ∨ m = "PUT" ∨ m = "DELETE")
    (hnet : net m p = RequestOutcome.netErr e) :
    make_http_request net params = HttpResult.failure e := by
  subst hm; subst hp
  rcases hsupp with h | h | h | h <;>
    rw [h] at hnet <;>
    simp [make_http_request, performRequest, h, hnet]

/-- Witness for C7 at a concrete refused connection. -/
theorem make_http_request_catches_network_errors_witness :
    make_http_request (fun _ _ => RequestOutcome.netErr "connection refused")
      ⟨some "GET", some "/health", [], none⟩ =
    HttpResult.failure "connection refused" :=
  make_http_request_catches_network_errors
    (fun _ _ => RequestOutcome.netErr "connection refused")
    ⟨some "GET", some "/health", [], none⟩ "connection refused" "GET" "/health"
    (by decide) (by decide) (Or.inl rfl) rfl

/-- Claim C10: for every input, a missing method argument behaves as an
explicit GET whatever the other arguments are, a missing path argument
behaves as the root path whatever the other arguments are, and dispatch
happens on the upper-cased method, so two spellings with equal
upper-casing behave identically; in particular method get behaves as
GET. -/
theorem make_http_request_defaults_and_case (net : Network) :
    (∀ p h b, make_http_request net ⟨none, p, h, b⟩ =
        make_http_request net ⟨some "GET", p, h, b⟩) ∧
    (∀ m h b, make_http_request net ⟨m, none, h, b⟩ =
        make_http_request net ⟨m, some "/", h, b⟩) ∧
    (∀ m1 m2 p h b, strUpper m1 = strUpper m2 →
        make_http_request net ⟨some m1, p, h, b⟩ =
        make_http_request net ⟨some m2, p, h, b⟩) ∧
    (∀ p h b, make_http_request net ⟨some "get", p, h, b⟩ =
        make_http_request net ⟨some "GET", p, h, b⟩) := by
  refine ⟨fun p h b => rfl, fun m h b => rfl,
    fun m1 m2 p h b hm => ?_, fun p h b => ?_⟩
  · simp only [make_http_request, Option.getD_some]
    rw [hm]
  · have hm : strUpper "get" = strUpper "GET" := by decide
    simp only [make_http_request, Option.getD_some]
    rw [hm]

/-- Witness for C10: the case-insensitivity clause at method put. -/
theorem make_http_request_defaults_and_case_witness :
    strUpper "put" = strUpper "PUT" ∧
    make_http_request (fun _ _ => RequestOutcome.netErr "down")
      ⟨some "put", some "/api", [], none⟩ =
    make_http_request (fun _ _ => RequestOutcome.netErr "down")
      ⟨some "PUT", some "/api", [], none⟩ :=
  ⟨by decide,
   (make_http_request_defaults_and_case
      (fun _ _ => RequestOutcome.netErr "down")).2.2.1
     "put" "PUT" (some "/api") [] none (by decide)⟩

/-- Claim C5 counterexample: the specification-synthesis ceiling is 10,
which is not a single-digit number. -/
theorem specification_ceiling_not_single_digit :
    specificationAgentMaxIterations = 10 ∧
    ¬ specificationAgentMaxIterations ≤ 9 := by decide

/-- Claim C5 as amended: the ceilings are 100 for exploration (generous,
tens of turns), 10 for specification synthesis (the smallest of the
three but not single-digit), and 40 for code generation, ordered
specification below code generation below exploration. -/
theorem iteration_ceilings_ordered :
    explorationAgentMaxIterations = 100 ∧
    specificationAgentMaxIterations = 10 ∧
    codeGeneratorAgentMaxIterations = 40 ∧
    specificationAgentMaxIterations < codeGeneratorAgentMaxIterations ∧
    codeGeneratorAgentMaxIterations < explorationAgentMaxIterations := by
  decide

/-- Claim C3 counterexample: after writing the same path twice the
manifest holds the path twice, refuting the at-most-once clause. -/
theorem write_file_duplicate_manifest :
    ¬ ((write_file (write_file ⟨fun _ => none, []⟩ "a.txt" "one").1
          "a.txt" "two").1.generated_files.count "a.txt" ≤ 1) := by
  decide

/-- Claim C3 as amended: repeated writes to a path are last-write-wins
on disk, and the manifest appends the path once per call, so a path
written twice appears twice rather than at most once. -/
theorem write_file_last_write_wins (st : CGState) (p c1 c2 : String) :
    ((write_file (write_file st p c1).1 p c2).1.fs p = some c2) ∧
    (write_file (write_file st p c1).1 p c2).1.generated_files =
      st.generated_files ++ [p, p] := by
  constructor
  · simp [write_file]
  · simp [write_file]

/-- In every branch of the dev phase the spawned process, when one
exists, has exited by the time the phase returns. -/
theorem devPhase_proc_exited (d : SpawnOutcome) :
    (devPhase d).2.2 = none ∨ (devPhase d).2.2 = some ProcState.exited := by
  rcases d with e | ⟨ee, ex, h⟩
  · left; rfl
  · right
    rcases ee with _ | ⟨out, err⟩
    · rcases h with n | e
      · by_cases h200 : n = 200 <;>
          simp [devPhase, cleanupRunningProc, h200] <;>
          cases ex <;> simp
      · simp [devPhase, cleanupRunningProc]
        cases ex <;> simp
    · simp [devPhase, cleanupExitedProc]

/-- A process still alive at cleanup is sent SIGTERM to its group first
and SIGKILL exactly when it does not exit within the grace period. -/
theorem devPhase_signals (ex : Bool) (h : HealthOutcome) :
    (devPhase (SpawnOutcome.spawned none ex h)).2.1 =
      "SIGTERM" :: (if ex then [] else ["SIGKILL"]) := by
  rcases h with n | e
  · by_cases h200 : n = 200 <;>
      simp [devPhase, cleanupRunningProc, h200] <;>
      cases ex <;> simp
  · simp [devPhase, cleanupRunningProc]
    cases ex <;> simp

/-- Claim C1: whenever the run-and-health-check phase spawns a dev
process, that process is no longer running when validate_environment
returns, on every success and failure branch including a raising health
probe; termination goes to the process group with the graceful SIGTERM
first, escalating to SIGKILL exactly when the process does not exit
within the grace period. -/
theorem validate_environment_cleanup (env : ValidationEnv) :
    ((validate_environment env).2.procFinal = none ∨
      (validate_environment env).2.procFinal = some ProcState.exited) ∧
    (∀ ex h, runStepFailed env.install = false →
      runStepFailed env.build = false →
      env.dev = SpawnOutcome.spawned none ex h →
      (validate_environment env).2.signalsSent =
        "SIGTERM" :: (if ex then [] else ["SIGKILL"])) := by
  obtain ⟨i, b, d⟩ := env
  constructor
  · rcases i with ⟨rc, out, err⟩ | _ | e
    · by_cases hrc : rc = 0
      · subst hrc
        rcases b with ⟨rcB, outB, errB⟩ | _ | eB
        · by_cases hrcB : rcB = 0
          · subst hrcB
            have hd := devPhase_proc_exited d
            simp [validate_environment]
            rcases hd with hd | hd <;> simp [hd]
          · simp [validate_environment, hrcB]
        · simp [validate_environment]
        · simp [validate_environment]
      · simp [validate_environment, hrc]
    · simp [validate_environment]
    · simp [validate_environment]
  · intro ex h hi hb hd
    rcases i with ⟨rc, out, err⟩ | _ | e
    · rcases b with ⟨rcB, outB, errB⟩ | _ | eB
      · subst hd
        simp [runStepFailed] at hi hb
        simp [validate_environment, hi, hb, devPhase_signals]
      · simp [runStepFailed] at hb
      · simp [runStepFailed] at hb
    · simp [runStepFailed] at hi
    · simp [runStepFailed] at hi

/-- Witness for C1 at a run whose health probe raises and whose dev
process ignores SIGTERM: the process is exited after the call and both
signals were sent, graceful first. -/
theorem validate_environment_cleanup_witness :
    ((validate_environment ⟨RunOutcome.completed 0 "" "",
        RunOutcome.completed 0 "" "",
        SpawnOutcome.spawned none false (HealthOutcome.exc "timed out")⟩).2.procFinal = none ∨
     (validate_environment ⟨RunOutcome.completed 0 "" "",
        RunOutcome.completed 0 "" "",
        SpawnOutcome.spawned none false (HealthOutcome.exc "timed out")⟩).2.procFinal =
       some ProcState.exited) ∧
    (validate_environment ⟨RunOutcome.completed 0 "" "",
        RunOutcome.completed 0 "" "",
        SpawnOutcome.spawned none false (HealthOutcome.exc "timed out")⟩).2.signalsSent =
      ["SIGTERM", "SIGKILL"] := by
  refine ⟨(validate_environment_cleanup _).1, ?_⟩
  have h := (validate_environment_cleanup
      ⟨RunOutcome.completed 0 "" "", RunOutcome.completed 0 "" "",
       SpawnOutcome.spawned none false (HealthOutcome.exc "timed out")⟩).2
    false (HealthOutcome.exc "timed out") (by decide) (by decide) rfl
  simpa using h

/-- Claim C2: the three phases run strictly in the order install, build,
dev, short-circuiting on the first failure: a failing install launches
no build or dev subprocess and tags phase install; a failing build after
a successful install launches no dev subprocess and tags phase build;
once install and build pass the dev command is launched and any failure
of the call is tagged phase dev. -/
theorem validate_environment_short_circuits (env : ValidationEnv) :
    (runStepFailed env.install = true →
      (validate_environment env).1.success = false ∧
      (validate_environment env).1.phase = some "install" ∧
      (validate_environment env).2.launched = ["pnpm install"]) ∧
    (runStepFailed env.install = false → runStepFailed env.build = true →
      (validate_environment env).1.success = false ∧
      (validate_environment env).1.phase = some "build" ∧
      (validate_environment env).2.launched = ["pnpm install", "pnpm build"]) ∧
    (runStepFailed env.install = false → runStepFailed env.build = false →
      (validate_environment env).2.launched =
        ["pnpm install", "pnpm build", "pnpm run dev"] ∧
      ((validate_environment env).1.success = false →
        (validate_environment env).1.phase = some "dev")) := by
  obtain ⟨i, b, d⟩ := env
  refine ⟨?_, ?_, ?_⟩
  · intro hi
    rcases i with ⟨rc, out, err⟩ | _ | e
    · simp [runStepFailed] at hi
      simp [validate_environment, hi]
    · simp [validate_environment]
    · simp [validate_environment]
  · intro hi hb
    rcases i with ⟨rc, out, err⟩ | _ | e
    · simp [runStepFailed] at hi
      rcases b with ⟨rcB, outB, errB⟩ | _ | eB
      · simp [runStepFailed] at hb
        simp [validate_environment, hi, hb]
      · simp [validate_environment, hi]
      · simp [validate_environment, hi]
    · simp [runStepFailed] at hi
    · simp [runStepFailed] at hi
  · intro hi hb
    rcases i with ⟨rc, out, err⟩ | _ | e
    · simp [runStepFailed] at hi
      rcases b with ⟨rcB, outB, errB⟩ | _ | eB
      · simp [runStepFailed] at hb
        constructor
        · simp [validate_environment, hi, hb]
        · intro hfail
          rcases d with e | ⟨ee, ex, h⟩
          · simp [validate_environment, hi, hb, devPhase]
          · rcases ee with _ | ⟨out2, err2⟩
            · rcases h with n | e2
              · by_cases h200 : n = 200
                · subst h200
                  simp [validate_environment, hi, hb, devPhase,
                    cleanupRunningProc] at hfail
                · simp [validate_environment, hi, hb, devPhase,
                    cleanupRunningProc, h200]
              · simp [validate_environment, hi, hb, devPhase,
                  cleanupRunningProc]
            · simp [validate_environment, hi, hb, devPhase,
                cleanupExitedProc]
      · simp [runStepFailed] at hb
      · simp [runStepFailed] at hb
    · simp [runStepFailed] at hi
    · simp [runStepFailed] at hi

/-- Witness for C2: a nonzero install exit tags phase install after
launching only the install command; a build timeout after a clean
install tags phase build; a clean install and build launch the dev
command, and its early exit tags phase dev. -/
theorem validate_environment_short_circuits_witness :
    ((validate_environment ⟨RunOutcome.completed 1 "" "boom",
        RunOutcome.completed 0 "" "",
        SpawnOutcome.launchFail "never"⟩).1.success = false ∧
     (validate_environment ⟨RunOutcome.completed 1 "" "boom",
        RunOutcome.completed 0 "" "",
        SpawnOutcome.launchFail "never"⟩).1.phase = some "install" ∧
     (validate_environment ⟨RunOutcome.completed 1 "" "boom",
        RunOutcome.completed 0 "" "",
        SpawnOutcome.launchFail "never"⟩).2.launched = ["pnpm install"]) ∧
    ((validate_environment ⟨RunOutcome.completed 0 "" "",
        RunOutcome.timedOut,
        SpawnOutcome.launchFail "never"⟩).1.success = false ∧
     (validate_environment ⟨RunOutcome.completed 0 "" "",
        RunOutcome.timedOut,
        SpawnOutcome.launchFail "never"⟩).1.phase = some "build" ∧
     (validate_environment ⟨RunOutcome.completed 0 "" "",
        RunOutcome.timedOut,
        SpawnOutcome.launchFail "never"⟩).2.launched =
       ["pnpm install", "pnpm build"]) ∧
    ((validate_environment ⟨RunOutcome.completed 0 "" "",
        RunOutcome.completed 0 "" "",
        SpawnOutcome.spawned (some ("log", "crash")) true
          (HealthOutcome.status 200)⟩).2.launched =
       ["pnpm install", "pnpm build", "pnpm run dev"] ∧
     (validate_environment ⟨RunOutcome.completed 0 "" "",
        RunOutcome.completed 0 "" "",
        SpawnOutcome.spawned (some ("log", "crash")) true
          (HealthOutcome.status 200)⟩).1.phase = some "dev") := by
  refine ⟨(validate_environment_short_circuits _).1 (by decide),
    (validate_environment_short_circuits _).2.1 (by decide) (by decide), ?_⟩
  have h := (validate_environment_short_circuits
      ⟨RunOutcome.completed 0 "" "", RunOutcome.completed 0 "" "",
       SpawnOutcome.spawned (some ("log", "crash")) true
         (HealthOutcome.status 200)⟩).2.2 (by decide) (by decide)
  exact ⟨h.1, h.2 (by decide)⟩

/-- Claim C6: an unregistered tool name never terminates the run: the
exploration dispatch yields a failure ToolResult whose message carries
the offending name, runs no handler, leaves the state untouched and the
run still running; the code-generation dispatch likewise raises the
Unknown tool ValueError with the name, which the loop converts rather
than propagates. -/
theorem unknown_tool_is_nonfatal (net : Network) (st : ExplorationState)
    (name : String) (input : ExplToolInput)
    (h1 : name ≠ "make_http_request") (h2 : name ≠ "record_observation")
    (h3 : name ≠ "complete_exploration")
    (h4 : name ≠ "write_file") (h5 : name ≠ "create_seed_database")
    (h6 : name ≠ "validate_environment") (h7 : name ≠ "complete_generation") :
    loopDispatch net st name input =
      (ToolResult.failure ("Unknown tool: " ++ name), st, [],
        RunStatus.running) ∧
    cg_execute_tool_route name =
      ExecOutcome.raised ("Unknown tool: " ++ name) ∧
    (∃ pre, "Unknown tool: " ++ name = pre ++ name) := by
  refine ⟨?_, ?_, ⟨"Unknown tool: ", rfl⟩⟩
  · simp [loopDispatch, ToolExecutor_execute, h1, h2, h3]
  · simp [cg_execute_tool_route, h4, h5, h6, h7]

/-- Witness for C6 at the unregistered name frobnicate. -/
theorem unknown_tool_is_nonfatal_witness :
    loopDispatch (fun _ _ => RequestOutcome.netErr "down") ⟨[]⟩ "frobnicate"
        ⟨⟨none, none, [], none⟩, none, none, none⟩ =
      (ToolResult.failure ("Unknown tool: " ++ "frobnicate"), ⟨[]⟩, [],
        RunStatus.running) ∧
    cg_execute_tool_route "frobnicate" =
      ExecOutcome.raised ("Unknown tool: " ++ "frobnicate") :=
  ⟨(unknown_tool_is_nonfatal (fun _ _ => RequestOutcome.netErr "down") ⟨[]⟩
      "frobnicate" ⟨⟨none, none, [], none⟩, none, none, none⟩
      (by decide) (by decide) (by decide) (by decide) (by decide)
      (by decide) (by decide)).1,
   (unknown_tool_is_nonfatal (fun _ _ => RequestOutcome.netErr "down") ⟨[]⟩
      "frobnicate" ⟨⟨none, none, [], none⟩, none, none, none⟩
      (by decide) (by decide) (by decide) (by decide) (by decide)
      (by decide) (by decide)).2.1⟩

/-- Claim C9 counterexample: a schema whose only statement fails during
execution makes the tool raise, yet a store file remains at the target
path with no schema statement applied. -/
theorem create_seed_database_leaves_empty_store :
    ((create_seed_database
        (fun s db => if s = "CREATE TABLEX t (x);" then none
          else some (db ++ [s]))
        ⟨fun q => if q = "data/schema.sql"
            then some ["CREATE TABLEX t (x);"] else none,
          fun _ => none⟩
        "data/schema.sql" "data/seed.db").1 =
      ExecOutcome.raised
        ("SQL error in statement: " ++ "CREATE TABLEX t (x);")) ∧
    ((create_seed_database
        (fun s db => if s = "CREATE TABLEX t (x);" then none
          else some (db ++ [s]))
        ⟨fun q => if q = "data/schema.sql"
            then some ["CREATE TABLEX t (x);"] else none,
          fun _ => none⟩
        "data/schema.sql" "data/seed.db").2.dbFiles "data/seed.db" =
      some []) := by
  constructor <;> rfl

/-- Claim C9 as amended: the tool is atomic only against an unreadable
schema file, which raises before the store is touched; once the schema
file is readable, a store file exists at the target path after the call
holding exactly the statements executescript applied, even when a
failing statement makes the call raise with part or none of the schema
applied. -/
theorem create_seed_database_failure_behaviour (exec : SqlExec)
    (fs : SeedFS) (sp op : String) :
    (fs.textFiles sp = none →
      (create_seed_database exec fs sp op).1 =
        ExecOutcome.raised ("No such file or directory: " ++ sp) ∧
      (create_seed_database exec fs sp op).2.dbFiles = fs.dbFiles) ∧
    (∀ stmts, fs.textFiles sp = some stmts →
      (create_seed_database exec fs sp op).2.dbFiles op =
        some (executescript exec stmts ((fs.dbFiles op).getD [])).2) := by
  constructor
  · intro h
    simp [create_seed_database, h]
  · intro stmts h
    rcases he : executescript exec stmts ((fs.dbFiles op).getD [])
      with ⟨errOpt, db2⟩
    rcases errOpt with _ | e <;> simp [create_seed_database, h, he]

/-- Witness for C9 as amended: the unreadable-schema clause on an empty
filesystem, and the readable-schema clause on a one-statement schema. -/
theorem create_seed_database_failure_behaviour_witness :
    ((create_seed_database (fun s db => some (db ++ [s]))
        ⟨fun _ => none, fun _ => none⟩ "data/schema.sql" "data/seed.db").1 =
      ExecOutcome.raised
        ("No such file or directory: " ++ "data/schema.sql") ∧
     (create_seed_database (fun s db => some (db ++ [s]))
        ⟨fun _ => none, fun _ => none⟩
        "data/schema.sql" "data/seed.db").2.dbFiles =
       (⟨fun _ => none, fun _ => none⟩ : SeedFS).dbFiles) ∧
    (create_seed_database (fun s db => some (db ++ [s]))
        ⟨fun q => if q = "data/schema.sql"
            then some ["CREATE TABLE t (x);"] else none,
          fun _ => none⟩
        "data/schema.sql" "data/seed.db").2.dbFiles "data/seed.db" =
      some (executescript (fun s db => some (db ++ [s]))
        ["CREATE TABLE t (x);"]
        ((((⟨fun q => if q = "data/schema.sql"
              then some ["CREATE TABLE t (x);"] else none,
            fun _ => none⟩ : SeedFS)).dbFiles "data/seed.db").getD [])).2 :=
  ⟨(create_seed_database_failure_behaviour (fun s db => some (db ++ [s]))
      ⟨fun _ => none, fun _ => none⟩ "data/schema.sql" "data/seed.db").1 rfl,
   (create_seed_database_failure_behaviour (fun s db => some (db ++ [s]))
      ⟨fun q => if q = "data/schema.sql"
          then some ["CREATE TABLE t (x);"] else none,
        fun _ => none⟩ "data/schema.sql" "data/seed.db").2
     ["CREATE TABLE t (x);"] rfl⟩

/-- Claim C8 counterexample: a run whose single executed call is
output_specification with the empty object payload has called the
completion tool once before the ceiling, yet generate_spec reports
failure, because the stored payload is falsy. -/
theorem generate_spec_empty_payload_fails :
    calledOutputSpecification
        [SpecToolCall.output_specification (some [])] = true ∧
    (generate_spec
        [SpecToolCall.output_specification (some [])]).success = false := by
  constructor <;> rfl

/-- The run state after a call sequence is the payload of the last
output_specification call, or the initial state when none was made. -/
theorem runSpecCalls_eq_last (calls : List SpecToolCall)
    (st : Option JsonObj) :
    runSpecCalls calls st = (lastOutputPayload calls).getD st := by
  induction calls generalizing st with
  | nil => rfl
  | cons c rest ih =>
      cases c with
      | output_specification p =>
          simp [runSpecCalls, lastOutputPayload, spec_execute_tool, ih]
      | other n =>
          simp [runSpecCalls, lastOutputPayload, spec_execute_tool, ih]

/-- Claim C8 as amended: generate_spec reports success exactly when the
last executed output_specification call supplied a truthy payload, a
present and nonempty object; a mere invocation of the completion tool
is not sufficient. On success the returned specification is that last
payload verbatim. -/
theorem generate_spec_success_iff_truthy_payload
    (calls : List SpecToolCall) :
    ((generate_spec calls).success = true ↔
      ∃ p, lastOutputPayload calls = some p ∧ pyTruthyObj p = true) ∧
    ((generate_spec calls).success = true →
      (generate_spec calls).specification =
        (lastOutputPayload calls).getD none) := by
  have hrun : runSpecCalls calls none = (lastOutputPayload calls).getD none :=
    runSpecCalls_eq_last calls none
  constructor
  · rw [show (generate_spec calls).success =
        pyTruthyObj (runSpecCalls calls none) by
      simp [generate_spec]
      rcases h : pyTruthyObj (runSpecCalls calls none) <;> simp [h]]
    rw [hrun]
    cases h : lastOutputPayload calls with
    | none => simp [pyTruthyObj]
    | some p => simp
  · intro hs
    have ht : pyTruthyObj ((lastOutputPayload calls).getD none) = true := by
      by_contra hc
      rw [Bool.not_eq_true] at hc
      simp [generate_spec, hrun, hc] at hs
    simp [generate_spec, hrun, ht]

/-- Witness for C8 as amended at a one-call run with a truthy payload. -/
theorem generate_spec_success_iff_truthy_payload_witness :
    (generate_spec [SpecToolCall.output_specification
        (some [("api_name", "books")])]).specification =
      (lastOutputPayload [SpecToolCall.output_specification
        (some [("api_name", "books")])]).getD none :=
  (generate_spec_success_iff_truthy_payload
    [SpecToolCall.output_specification (some [("api_name", "books")])]).2
    (by rfl)

end Spec2Proof
